import Mathlib

/-!
# Verification of the maf component messaging runtime

Shallow embedding of `src/maf/messaging/Component.cpp`,
`src/maf/messaging/Timer.cpp` and
`src/maf/messaging/client-server/ipc/platforms/windows/NamedPipeSenderBase.h`,
with the external collaborators (`MessageQueue`, `threading::TimerManager`)
modelled from the specification where their code is not part of the
repository.
-/

set_option autoImplicit false

namespace Maf

/-- Models `MessageBase::Type`: a stable, process-unique identifier of a concrete
message variant, modelled as a natural number. -/
abbrev MessageType := Nat

/-- Models `MessageBase::idof<TimeoutMessage>()`: the type identity of the built-in
`TimeoutMessage` variant. Distinct variants have distinct identifiers. -/
def timeoutMessageId : MessageType := 0

/-- Models `MessageBase::idof<CallbackExcMsg>()`: the type identity of the built-in
`CallbackExcMsg` variant. -/
def callbackExcMsgId : MessageType := 1

/-- The observable outcome of invoking a C++ callable: it either returns
normally, throws an exception derived from `std::exception` (carrying the
`what()` description), or throws something else (caught only by `catch(...)`). -/
inductive HandlerResult where
  | ok
  | exc (description : String)
  | excUnknown
deriving DecidableEq, Repr

/-- A message: its runtime type identity (`MessageBase::idof(*msg)`) together
with what executing its embedded callback does (`TimeoutMessage::execute` /
`CallbackExcMsg::execute`); for variants without a callback the field is
irrelevant. -/
structure MessageBase where
  type : MessageType
  exec : HandlerResult
deriving DecidableEq, Repr

/-- Models `BaseMessageHandlerFunc`: a message handler; applying it models invoking
the callable, the result records whether the invocation threw. -/
abbrev BaseMessageHandlerFunc := MessageBase → HandlerResult

/-- The handler registry `std::map<MessageBase::Type, H>` as an association
list with unique keys (polymorphic in the mapped handler type `H`). -/
abbrev HandlerMap (H : Type) := List (MessageType × H)

/-- Models `std::map::insert`: adds the pair only when the key is not yet present;
an existing binding is NOT overwritten (this is `insert`, not `operator[]` or
`insert_or_assign`). -/
def mapInsert {H : Type} : HandlerMap H → MessageType → H → HandlerMap H
  | [], k, v => [(k, v)]
  | (k0, v0) :: rest, k, v =>
    if k = k0 then (k0, v0) :: rest else (k0, v0) :: mapInsert rest k v

/-- Models `std::map::find` followed by dereference: the binding of `k`, if any. -/
def mapFind {H : Type} : HandlerMap H → MessageType → Option H
  | [], _ => none
  | (k0, v0) :: rest, k => if k = k0 then some v0 else mapFind rest k

/-- Models `Component::ComponentImpl::registerMessageHandler(msgType, onMessageFunc)`
(Component.cpp:114-121): when the function object is non-null (`some`), lock
the map and `insert`; a null function (`none`) is a no-op. -/
def registerMessageHandler {H : Type} (m : HandlerMap H) (t : MessageType)
    (f : Option H) : HandlerMap H :=
  match f with
  | none => m
  | some g => mapInsert m t g

/-- The built-in handler for `TimeoutMessage` registered by the
`ComponentImpl` constructor (Component.cpp:43-46): casts and calls
`timeoutMsg->execute()`. -/
def timeoutMessageHandlerFn : BaseMessageHandlerFunc := fun msg => msg.exec

/-- The built-in handler for `CallbackExcMsg` registered by the
`ComponentImpl` constructor (Component.cpp:47-50): casts and calls
`cbExcMsg->execute()`. -/
def callbackExcMsgHandlerFn : BaseMessageHandlerFunc := fun msg => msg.exec

/-- The handler map produced by `Component::ComponentImpl::ComponentImpl()`
(Component.cpp:41-51): the `TimeoutMessage` handler is registered first, then
the `CallbackExcMsg` handler. -/
def componentInitialHandlers : HandlerMap BaseMessageHandlerFunc :=
  registerMessageHandler
    (registerMessageHandler [] timeoutMessageId (some timeoutMessageHandlerFn))
    callbackExcMsgId (some callbackExcMsgHandlerFn)

/-- A sequence of later `registerMessageHandler` calls applied in order
(each entry is a message type together with the possibly-null function). -/
def applyRegistrations {H : Type} (m : HandlerMap H) :
    List (MessageType × Option H) → HandlerMap H
  | [] => m
  | (t, f) :: rest => applyRegistrations (registerMessageHandler m t f) rest

-- ## Message loop (Component.cpp:132-186)

/-- What the loop body does with one popped message, as observable from
outside: each constructor is one of the disjoint branches of the body of
`while(_msgQueue.wait(msg))` in `startMessageLoop`. -/
inductive LoopEvent where
  /-- Models `if(!msg)`: `mafErr("Got nullptr message")`, then `continue`. -/
  | nullMessage
  /-- A handler was found and its invocation returned normally. -/
  | handled (t : MessageType)
  /-- A handler was found, its invocation threw a `std::exception`; the
  exception was caught by `catch(const std::exception&)` and logged. -/
  | handlerException (t : MessageType) (description : String)
  /-- A handler was found, its invocation threw something else; caught by
  `catch(...)` and logged. -/
  | handlerExceptionUnknown (t : MessageType)
  /-- No handler registered for the message type: `mafWarn`, message dropped. -/
  | noHandler (t : MessageType)
deriving DecidableEq, Repr

/-- The `try { handlerFunc(msg); } catch ...` frame (Component.cpp:162-173):
every invocation outcome is mapped to a loop event; a throwing outcome
becomes a caught-and-logged event, never a propagated exception. -/
def caughtEvent (t : MessageType) : HandlerResult → LoopEvent
  | .ok => .handled t
  | .exc e => .handlerException t e
  | .excUnknown => .handlerExceptionUnknown t

/-- One iteration of the message loop body on a popped message
(Component.cpp:141-179): null check, registry lookup under lock, guarded
invocation inside the catch-all frame, warning when no handler exists.
`none` models a null `MessageBasePtr`. -/
def dispatchMessage (handlers : HandlerMap BaseMessageHandlerFunc)
    (msg : Option MessageBase) : LoopEvent :=
  match msg with
  | none => .nullMessage
  | some m =>
    match mapFind handlers m.type with
    | some handlerFunc => caughtEvent m.type (handlerFunc m)
    | none => .noHandler m.type

/-- The `while(_msgQueue.wait(msg))` loop: `msgs` is the sequence of messages
the queue yields before `wait` returns `false` (queue closed and drained);
the result is the sequence of loop events, one per popped message. -/
def messageLoop (handlers : HandlerMap BaseMessageHandlerFunc) :
    List (Option MessageBase) → List LoopEvent
  | [] => []
  | msg :: rest => dispatchMessage handlers msg :: messageLoop handlers rest

/-- Does the event record an exception that was caught and logged inside the
loop? -/
def isCaughtExceptionLog : LoopEvent → Bool
  | .handlerException _ _ => true
  | .handlerExceptionUnknown _ => true
  | _ => false

/-- The actions `startMessageLoop` performs, in order. -/
inductive LoopAction where
  /-- Models `_compref = _tlwpInstance = compref` (Component.cpp:134): install the
  thread-local active-component binding. -/
  | bindActiveComponent
  /-- Invocation of the `onEntry` hook (Component.cpp:135-138). -/
  | runOnEntry
  /-- One loop-body iteration on a popped message. -/
  | processMessage (e : LoopEvent)
  /-- Invocation of the `onExit` hook (Component.cpp:182-185). -/
  | runOnExit
deriving DecidableEq, Repr

/-- Models `Component::ComponentImpl::startMessageLoop` (Component.cpp:132-186) as
the ordered trace of its actions. `hasOnEntry`/`hasOnExit` model the null
checks of the `std::function` hooks; `aliveAtEntry`/`aliveAtExit` model the
outcomes of `_compref.lock()` at the two upgrade points. -/
def startMessageLoop (handlers : HandlerMap BaseMessageHandlerFunc)
    (hasOnEntry aliveAtEntry hasOnExit aliveAtExit : Bool)
    (msgs : List (Option MessageBase)) : List LoopAction :=
  LoopAction.bindActiveComponent ::
    ((if hasOnEntry && aliveAtEntry then [LoopAction.runOnEntry] else []) ++
     (messageLoop handlers msgs).map LoopAction.processMessage ++
     (if hasOnExit && aliveAtExit then [LoopAction.runOnExit] else []))

-- ## Message queue and stop (Component.cpp:73-84)

/-- Modelled from the spec: `MessageQueue` (its header is not part of the
repository sources) is an ordered sequence of messages with an Open/Closed
flag; `close()` is idempotent and transitions Open to Closed. -/
structure MessageQueue where
  closed : Bool
  pending : List MessageBase
deriving DecidableEq, Repr

/-- Modelled from the spec: `MessageQueue::close` — idempotent transition to
the terminal Closed state; pending messages are kept so waiters can drain. -/
def MessageQueue.close (q : MessageQueue) : MessageQueue :=
  { q with closed := true }

/-- The fields of `Component::ComponentImpl` that `stop()` touches: the
queue, whether `_timerMgr` is non-null, and whether `_workerThread` is
joinable. -/
structure ComponentState where
  msgQueue : MessageQueue
  hasTimerMgr : Bool
  workerJoinable : Bool
deriving DecidableEq, Repr

/-- The externally observable operations `stop()` can perform. -/
inductive StopAction where
  /-- Models `_msgQueue.close()` -/
  | closeQueue
  /-- Models `_timerMgr->stop()` -/
  | stopTimerManager
  /-- Models `_timerMgr.reset()` -/
  | resetTimerManager
  /-- Models `_workerThread.join()` -/
  | joinWorkerThread
deriving DecidableEq, BEq, Repr

/-- Models `Component::ComponentImpl::stop` (Component.cpp:73-84), as the ordered
trace of operations it performs. `callerIsWorker` models
`std::this_thread::get_id() == _workerThread.get_id()`. -/
def stopActions (s : ComponentState) (callerIsWorker : Bool) :
    List StopAction :=
  StopAction.closeQueue ::
    ((if s.hasTimerMgr
      then [StopAction.stopTimerManager, StopAction.resetTimerManager]
      else []) ++
     (if !callerIsWorker && s.workerJoinable
      then [StopAction.joinWorkerThread]
      else []))

/-- Models `Component::ComponentImpl::stop` (Component.cpp:73-84), as a state
transformer: the queue is closed, the timer manager (if any) is stopped and
released, and the worker thread is joined when the caller is not the worker
itself. -/
def stopState (s : ComponentState) (callerIsWorker : Bool) : ComponentState :=
  { msgQueue := s.msgQueue.close
    hasTimerMgr := false
    workerJoinable :=
      if !callerIsWorker && s.workerJoinable then false else s.workerJoinable }

-- ## postMessage (Component.cpp:86-104)

/-- The exceptions the `catch` clauses of `postMessage` distinguish:
`std::bad_alloc`, any other `std::exception`, or anything else. -/
inductive CppExc where
  | badAlloc (what : String)
  | stdExc (what : String)
  | unknownExc
deriving DecidableEq, Repr

/-- The observable outcome of a `postMessage` call that returned normally. -/
inductive PostOutcome where
  /-- Case where `push` succeeded; the message is in the queue. -/
  | delivered (q : MessageQueue)
  /-- Case where `push` threw; the exception was caught, the given text was logged with
  `mafErr`, and the message was dropped. -/
  | droppedLogged (logText : String)
deriving DecidableEq, Repr

/-- Modelled from the spec: `MessageQueue::push` (its code is not part of
the repository sources) — enqueue at tail; rejected once the queue is
Closed; an internal allocation failure raises `std::bad_alloc`. `allocOk`
models whether the internal allocation succeeds. -/
def MessageQueue.push (q : MessageQueue) (msg : MessageBase)
    (allocOk : Bool) : Except CppExc MessageQueue :=
  if !allocOk then .error (.badAlloc "bad allocation")
  else if q.closed then .error (.stdExc "queue is closed")
  else .ok { q with pending := q.pending ++ [msg] }

/-- The `mafErr` text each `catch` clause of `postMessage`
(Component.cpp:92-103) logs for the exception it caught. -/
def pushErrorLogText : CppExc → String
  | .badAlloc w => "Queue overflow: " ++ w
  | .stdExc w => "Exception occurred when pushing data to queue: " ++ w
  | .unknownExc => "Unkown exception occurred when pushing data to queue!"

/-- Models `Component::ComponentImpl::postMessage` (Component.cpp:86-104) given the
outcome of `_msgQueue.push(...)`: the `try`/`catch` frame. The codomain
`Except CppExc` expresses that `postMessage` could in principle let an
exception escape; each of the three `catch` clauses (`std::bad_alloc`,
`std::exception`, `...`) maps its exception to a normal (`Except.ok`)
logged-and-dropped return. -/
def postMessageCatch (pushOutcome : Except CppExc MessageQueue) :
    Except CppExc PostOutcome :=
  match pushOutcome with
  | .ok q => .ok (.delivered q)
  | .error e => .ok (.droppedLogged (pushErrorLogText e))

/-- Models `Component::ComponentImpl::postMessage` applied to a concrete queue:
forwards the message to the queue's `push` and wraps the outcome in the
catch frame. -/
def postMessage (q : MessageQueue) (msg : MessageBase) (allocOk : Bool) :
    Except CppExc PostOutcome :=
  postMessageCatch (q.push msg allocOk)

-- ## Timer manager and timer façade (Timer.cpp, Component.cpp:123-130, 202-213)

/-- Modelled from the spec: a job record of the `threading::TimerManager`
(whose code is not part of the repository sources):
`{id, duration, cyclic}`. -/
structure TimerJob where
  id : Nat
  durationMs : Nat
  cyclic : Bool
deriving DecidableEq, Repr

/-- Modelled from the spec: `threading::TimerManager` — a scheduler of
timer jobs with ids drawn from a monotonic `IDManager`. -/
structure TimerManager where
  jobs : List TimerJob
  nextId : Nat
deriving DecidableEq, Repr

/-- Modelled from the spec: `TimerManager::invalidJobID()` — the sentinel id
meaning "no job". -/
def TimerManager.invalidJobID : Nat := 0

/-- Modelled from the spec: a freshly constructed
`threading::TimerManager` has no jobs; ids start above the sentinel. -/
def TimerManager.new : TimerManager :=
  { jobs := [], nextId := TimerManager.invalidJobID + 1 }

/-- Modelled from the spec: `TimerManager::isRunning(id)` — true iff a job
with that id is currently scheduled. -/
def TimerManager.isRunning (m : TimerManager) (id : Nat) : Bool :=
  m.jobs.any (fun j => j.id = id)

/-- Modelled from the spec: `TimerManager::start(duration, callback, cyclic)`
— registers a new job and returns a fresh id. -/
def TimerManager.startJob (m : TimerManager) (ms : Nat) (cyclic : Bool) :
    TimerManager × Nat :=
  ({ jobs := m.jobs ++ [⟨m.nextId, ms, cyclic⟩], nextId := m.nextId + 1 },
   m.nextId)

/-- Modelled from the spec: `TimerManager::stop(id)` — cancels the job if
present; no-op for an invalid or completed id. -/
def TimerManager.stopJob (m : TimerManager) (id : Nat) : TimerManager :=
  { m with jobs := m.jobs.filter (fun j => j.id ≠ id) }

/-- The timer-manager-facing operations a `Timer` call can perform, in
order. -/
inductive TimerMgrOp where
  /-- Models `_myMgr->stop(_id)` -/
  | opStopJob (id : Nat)
  /-- Models `_id = _myMgr->start(ms, onTimeout, _cyclic)` -/
  | opStartJob (ms : Nat) (cyclic : Bool) (newId : Nat)
deriving DecidableEq, Repr

/-- The fields of the `Timer` façade: `_id`, `_cyclic`, `_myMgr`
(Timer.h state used by Timer.cpp). `myMgr` is the manager handle the timer
holds, `none` when the `shared_ptr` is empty. -/
structure Timer where
  id : Nat
  cyclic : Bool
  myMgr : Option TimerManager
deriving DecidableEq, Repr

/-- Models `Timer::Timer()` (Timer.cpp:14-16): `_id = invalidJobID()`,
`_cyclic = false`, empty manager handle. -/
def Timer.init : Timer :=
  { id := TimerManager.invalidJobID, cyclic := false, myMgr := none }

/-- Models `Timer::running()` (Timer.cpp:83-86): `_myMgr && _myMgr->isRunning(_id)`. -/
def Timer.running (t : Timer) : Bool :=
  match t.myMgr with
  | some m => m.isRunning t.id
  | none => false

/-- The `_pImpl` state that `Component::ComponentImpl::getTimerManager`
reads and writes: the lazily created `_timerMgr` field. -/
structure ActiveComponentImpl where
  timerMgr : Option TimerManager
deriving DecidableEq, Repr

/-- Models `Component::ComponentImpl::getTimerManager` (Component.cpp:123-130):
lazily constructs `_timerMgr` on first call and returns it. -/
def getTimerManagerImpl (c : ActiveComponentImpl) :
    ActiveComponentImpl × TimerManager :=
  match c.timerMgr with
  | some m => (c, m)
  | none => ({ timerMgr := some TimerManager.new }, TimerManager.new)

/-- Models `Component::getTimerManager` (static, Component.cpp:202-213): upgrades
the thread-local weak handle `_tlwpInstance`; when no component is active
(`tl = none`, the lock fails) it returns the empty handle, otherwise the
active component's lazily created manager. -/
def getTimerManagerStatic (tl : Option ActiveComponentImpl) :
    Option ActiveComponentImpl × Option TimerManager :=
  match tl with
  | some c =>
    let r := getTimerManagerImpl c
    (some r.1, some r.2)
  | none => (none, none)

/-- Models `Timer::start(milliseconds, callback)` (Timer.cpp:23-65).
`callbackIsNull` models `!callback`; `tl` is the thread-local
active-component binding consulted by `Component::getTimerManager()`.
Returns the updated façade together with the ordered trace of operations
performed on a timer manager. Note `_myMgr` is assigned the result of
`getTimerManager()` before the emptiness test, so a start from a
component-less thread still clears the held manager handle. -/
def Timer.start (t : Timer) (ms : Nat) (callbackIsNull : Bool)
    (tl : Option ActiveComponentImpl) : Timer × List TimerMgrOp :=
  if callbackIsNull then (t, [])
  else
    match (getTimerManagerStatic tl).2 with
    | none => ({ t with myMgr := none }, [])
    | some mgr =>
      let stopFirst := mgr.isRunning t.id
      let mgr2 := if stopFirst then mgr.stopJob t.id else mgr
      let r := mgr2.startJob ms t.cyclic
      ({ t with myMgr := some r.1, id := r.2 },
       (if stopFirst then [TimerMgrOp.opStopJob t.id] else []) ++
       [TimerMgrOp.opStartJob ms t.cyclic r.2])

/-- Models `TimeoutMessage { timerID, callback }` as posted by the marshalling
callback; the callback is represented by the message's `exec` behaviour in
`MessageBase`, here only the id matters. -/
structure TimeoutMessage where
  timerID : Nat
deriving DecidableEq, Repr

/-- One firing of the marshalling `onTimeout` lambda registered by
`Timer::start` (Timer.cpp:37-60). `componentAlive` models whether
`componentRef.lock()` succeeds. Returns the updated façade state, the
`TimeoutMessage` posted to the component (if any), and the manager
operations performed. -/
def Timer.onTimeout (t : Timer) (componentAlive : Bool) :
    Timer × Option TimeoutMessage × List TimerMgrOp :=
  let msg : TimeoutMessage := { timerID := t.id }
  if componentAlive then
    let t2 := if !t.cyclic then { t with id := TimerManager.invalidJobID } else t
    (t2, some msg, [])
  else
    let ops :=
      if t.cyclic && t.myMgr.isSome then [TimerMgrOp.opStopJob t.id] else []
    (({ t with id := TimerManager.invalidJobID }), none, ops)

/-- A run of successive firings of the marshalling callback: each entry of
`aliveSeq` is the outcome of the weak-handle upgrade at one firing. Returns
the final façade state and the number of `TimeoutMessage`s posted; each
posted message is executed exactly once by the component's built-in
`TimeoutMessage` handler, so this count is the number of user-callback
invocations. -/
def Timer.runFirings (t : Timer) : List Bool → Timer × Nat
  | [] => (t, 0)
  | alive :: rest =>
    let r := t.onTimeout alive
    let r2 := Timer.runFirings r.1 rest
    (r2.1, (if r.2.1.isSome then 1 else 0) + r2.2)

/-- Modelled from the spec: the contract of `threading::TimerManager` on how
often it invokes a job's callback (the manager's code is not part of the
repository sources): "If `cyclic`, the callback fires every `duration` until
stopped; otherwise once" — so a non-cyclic job's callback is invoked at most
once. `fires` is the number of invocations the manager performs. -/
def TimerManager.validFireCount (cyclic : Bool) (fires : Nat) : Prop :=
  cyclic = false → fires ≤ 1

-- ## NamedPipeSenderBase (NamedPipeSenderBase.h:19-26)

/-- The fields of `NamedPipeSenderBase` that `initConnection` touches. The
address type is abstract (`Address` is an external collaborator): any type
with decidable equality. -/
structure NamedPipeSenderState (α : Type) where
  pipeName : String
  receiverAddress : α
deriving DecidableEq, Repr

/-- Models `NamedPipeSenderBase::initConnection(addr)` (NamedPipeSenderBase.h:19-26):
updates `_receiverAddress` and `_pipeName` only when `addr` is not
`Address::INVALID_ADDRESS` and differs from the current receiver address.
`invalidAddress` models `Address::INVALID_ADDRESS` and `constructPipeName`
the external pipe-name builder from `PipeShared.h`. -/
def initConnection {α : Type} [DecidableEq α] (invalidAddress : α)
    (constructPipeName : α → String) (s : NamedPipeSenderState α)
    (addr : α) : NamedPipeSenderState α :=
  if addr ≠ invalidAddress ∧ s.receiverAddress ≠ addr then
    { receiverAddress := addr, pipeName := constructPipeName addr }
  else s

-- ## Sample values for concrete instantiations

/-- A sample handler whose invocation throws a `std::exception` whose
`what()` is "boom". -/
def throwingHandler : BaseMessageHandlerFunc := fun _ => HandlerResult.exc "boom"

/-- A sample registry binding message type 5 to `throwingHandler`. -/
def sampleHandlers : HandlerMap BaseMessageHandlerFunc := [(5, throwingHandler)]

/-- A sample message of type 5. -/
def sampleMessage : MessageBase := { type := 5, exec := HandlerResult.ok }

-- ## Registry lemmas

theorem mapFind_mapInsert_of_present {H : Type} (m : HandlerMap H)
    (k : MessageType) (v w : H) (h : mapFind m k = some v) :
    mapInsert m k w = m := by
  induction m with
  | nil => simp [mapFind] at h
  | cons p rest ih =>
    obtain ⟨k0, v0⟩ := p
    by_cases hk : k = k0
    · simp [mapInsert, hk]
    · simp [mapFind, hk] at h
      simp [mapInsert, hk, ih h]

theorem mapFind_mapInsert_of_absent {H : Type} (m : HandlerMap H)
    (k : MessageType) (v : H) (h : mapFind m k = none) :
    mapFind (mapInsert m k v) k = some v := by
  induction m with
  | nil => simp [mapInsert, mapFind]
  | cons p rest ih =>
    obtain ⟨k0, v0⟩ := p
    by_cases hk : k = k0
    · simp [mapFind, hk] at h
    · simp [mapFind, hk] at h
      simp [mapInsert, mapFind, hk, ih h]

theorem mapFind_mapInsert_preserved {H : Type} (m : HandlerMap H)
    (k t : MessageType) (v w : H) (h : mapFind m k = some v) :
    mapFind (mapInsert m t w) k = some v := by
  induction m with
  | nil => simp [mapFind] at h
  | cons p rest ih =>
    obtain ⟨k0, v0⟩ := p
    by_cases ht : t = k0
    · simpa [mapInsert, ht] using h
    · by_cases hk : k = k0
      · simp [mapFind, hk] at h
        simp [mapInsert, ht, mapFind, hk, h]
      · simp [mapFind, hk] at h
        simp [mapInsert, ht, mapFind, hk, ih h]

theorem mapFind_register_preserved {H : Type} (m : HandlerMap H)
    (k t : MessageType) (v : H) (f : Option H) (h : mapFind m k = some v) :
    mapFind (registerMessageHandler m t f) k = some v := by
  cases f with
  | none => simpa [registerMessageHandler] using h
  | some g => exact mapFind_mapInsert_preserved m k t v g h

theorem mapFind_applyRegistrations_preserved {H : Type}
    (regs : List (MessageType × Option H)) (m : HandlerMap H)
    (k : MessageType) (v : H) (h : mapFind m k = some v) :
    mapFind (applyRegistrations m regs) k = some v := by
  induction regs generalizing m with
  | nil => simpa [applyRegistrations] using h
  | cons p rest ih =>
    obtain ⟨t, f⟩ := p
    exact ih (registerMessageHandler m t f)
      (mapFind_register_preserved m k t v f h)

theorem register_after_register_same_type {H : Type} (m : HandlerMap H)
    (t : MessageType) (f g : H) :
    registerMessageHandler (registerMessageHandler m t (some f)) t (some g)
      = registerMessageHandler m t (some f) := by
  cases hfind : mapFind m t with
  | none =>
    exact mapFind_mapInsert_of_present (mapInsert m t f) t f g
      (mapFind_mapInsert_of_absent m t f hfind)
  | some v =>
    exact mapFind_mapInsert_of_present (mapInsert m t f) t v g
      (mapFind_mapInsert_preserved m t t v f hfind)

-- ## Loop lemmas

theorem messageLoop_append (handlers : HandlerMap BaseMessageHandlerFunc)
    (xs ys : List (Option MessageBase)) :
    messageLoop handlers (xs ++ ys)
      = messageLoop handlers xs ++ messageLoop handlers ys := by
  induction xs with
  | nil => rfl
  | cons x rest ih => simp [messageLoop, ih]

theorem runFirings_le_length (aliveSeq : List Bool) (t : Timer) :
    (Timer.runFirings t aliveSeq).2 ≤ aliveSeq.length := by
  induction aliveSeq generalizing t with
  | nil => simp [Timer.runFirings]
  | cons alive rest ih =>
    simp only [Timer.runFirings, List.length_cons]
    have h1 : (if (t.onTimeout alive).2.1.isSome then 1 else 0) ≤ 1 := by
      split <;> omega
    have h2 := ih (t.onTimeout alive).1
    omega

-- ## Claims

/-- C1, as stated, is false of the code: `registerMessageHandler` uses
`std::map::insert`, which does not overwrite an existing key. Registering a
first handler (which reports "first" when it runs) for type 5 and then a
second one (which reports "second"), the message loop still invokes the
first: dispatch of a type-5 message yields the event of the first handler,
not of the second. -/
theorem c1_latest_registration_counterexample :
    dispatchMessage
        (registerMessageHandler
          (registerMessageHandler []
            5 (some (fun _ => HandlerResult.exc "first")))
          5 (some (fun _ => HandlerResult.exc "second")))
        (some { type := 5, exec := HandlerResult.ok })
      = LoopEvent.handlerException 5 "first"
    ∧ dispatchMessage
        (registerMessageHandler
          (registerMessageHandler []
            5 (some (fun _ => HandlerResult.exc "first")))
          5 (some (fun _ => HandlerResult.exc "second")))
        (some { type := 5, exec := HandlerResult.ok })
      ≠ LoopEvent.handlerException 5 "second" := by
  exact ⟨rfl, by decide⟩

/-- C1 (amended): registering the same `MessageType` twice keeps only the
EARLIEST handler. A second registration for an already-registered type
leaves the handler map unchanged, and the lookup used by the message loop
still returns the first handler. -/
theorem c1_first_registration_wins {H : Type} (m : HandlerMap H)
    (t : MessageType) (f g : H) :
    registerMessageHandler (registerMessageHandler m t (some f)) t (some g)
      = registerMessageHandler m t (some f)
    ∧ (mapFind m t = none →
        mapFind
          (registerMessageHandler (registerMessageHandler m t (some f)) t
            (some g)) t
          = some f) := by
  refine ⟨register_after_register_same_type m t f g, fun habsent => ?_⟩
  rw [register_after_register_same_type m t f g]
  exact mapFind_mapInsert_of_absent m t f habsent

/-- Witness for `c1_first_registration_wins` at `H := Nat`, `m := []`,
`t := 0`, `f := 1`, `g := 2`. -/
theorem c1_first_registration_wins_witness :
    mapFind
        (registerMessageHandler
          (registerMessageHandler ([] : HandlerMap Nat) 0 (some 1)) 0
          (some 2)) 0
      = some 1 :=
  (c1_first_registration_wins ([] : HandlerMap Nat) 0 1 2).2 rfl

/-- C9: the built-in handlers for `TimeoutMessage` and `CallbackExcMsg` are
installed by the `ComponentImpl` constructor, and because registration
inserts without overwriting an existing key, no sequence of later
`registerMessageHandler` calls (with arbitrary types and possibly-null
functions) ever changes the handler the message loop's lookup returns for
these two message types. -/
theorem c9_builtin_handlers_permanent
    (regs : List (MessageType × Option BaseMessageHandlerFunc)) :
    mapFind (applyRegistrations componentInitialHandlers regs)
        timeoutMessageId
      = some timeoutMessageHandlerFn
    ∧ mapFind (applyRegistrations componentInitialHandlers regs)
        callbackExcMsgId
      = some callbackExcMsgHandlerFn := by
  constructor
  · exact mapFind_applyRegistrations_preserved regs componentInitialHandlers
      timeoutMessageId timeoutMessageHandlerFn rfl
  · exact mapFind_applyRegistrations_preserved regs componentInitialHandlers
      callbackExcMsgId callbackExcMsgHandlerFn rfl

/-- C2: for every message in the queue sequence whose registered handler
throws (any non-normal invocation outcome), the loop turns the exception
into a caught-and-logged event in place and still produces the normal event
sequence for every later message: the exception never escapes the loop and
the next messages are processed. -/
theorem c2_handler_exception_survives_loop
    (handlers : HandlerMap BaseMessageHandlerFunc)
    (pre post : List (Option MessageBase)) (m : MessageBase)
    (h : BaseMessageHandlerFunc)
    (hfind : mapFind handlers m.type = some h)
    (hthrows : h m ≠ HandlerResult.ok) :
    messageLoop handlers (pre ++ some m :: post)
      = messageLoop handlers pre
        ++ caughtEvent m.type (h m) :: messageLoop handlers post
    ∧ isCaughtExceptionLog (caughtEvent m.type (h m)) = true := by
  constructor
  · rw [messageLoop_append]
    simp [messageLoop, dispatchMessage, hfind]
  · cases hr : h m with
    | ok => exact absurd hr hthrows
    | exc e => simp [caughtEvent, isCaughtExceptionLog]
    | excUnknown => simp [caughtEvent, isCaughtExceptionLog]

/-- Witness for `c2_handler_exception_survives_loop`: the handler for type 5
throws "boom"; the null message after it is still processed. -/
theorem c2_handler_exception_survives_loop_witness :
    messageLoop sampleHandlers ([] ++ some sampleMessage :: [none])
      = messageLoop sampleHandlers []
        ++ caughtEvent sampleMessage.type (throwingHandler sampleMessage)
          :: messageLoop sampleHandlers [none]
    ∧ isCaughtExceptionLog
        (caughtEvent sampleMessage.type (throwingHandler sampleMessage))
      = true :=
  c2_handler_exception_survives_loop sampleHandlers [] [none] sampleMessage
    throwingHandler rfl (by decide)

/-- C3, as stated, is false of the code: on a component state that has a
timer manager, `stop()` closes the queue as its first operation (index 0)
and stops the timer manager only afterwards (index 1); the manager is NOT
stopped before the queue is closed. -/
theorem c3_manager_before_queue_counterexample :
    stopActions ⟨⟨false, []⟩, true, true⟩ false
      = [StopAction.closeQueue, StopAction.stopTimerManager,
         StopAction.resetTimerManager, StopAction.joinWorkerThread]
    ∧ ¬ ((stopActions ⟨⟨false, []⟩, true, true⟩ false).indexOf
          StopAction.stopTimerManager
        < (stopActions ⟨⟨false, []⟩, true, true⟩ false).indexOf
          StopAction.closeQueue) := by
  constructor
  · rfl
  · decide

/-- C3 (amended): in `Component::stop()`, when a timer manager exists, the
message queue is closed FIRST, and the timer manager is stopped and then
released immediately afterwards. -/
theorem c3_queue_closed_then_manager_stopped (s : ComponentState) (c : Bool)
    (h : s.hasTimerMgr = true) :
    (stopActions s c)[0]? = some StopAction.closeQueue
    ∧ (stopActions s c)[1]? = some StopAction.stopTimerManager
    ∧ (stopActions s c)[2]? = some StopAction.resetTimerManager := by
  simp [stopActions, h]

/-- Witness for `c3_queue_closed_then_manager_stopped` on a state with a
timer manager, called from the worker thread. -/
theorem c3_queue_closed_then_manager_stopped_witness :
    (stopActions ⟨⟨false, []⟩, true, false⟩ true)[0]?
      = some StopAction.closeQueue
    ∧ (stopActions ⟨⟨false, []⟩, true, false⟩ true)[1]?
      = some StopAction.stopTimerManager
    ∧ (stopActions ⟨⟨false, []⟩, true, false⟩ true)[2]?
      = some StopAction.resetTimerManager :=
  c3_queue_closed_then_manager_stopped ⟨⟨false, []⟩, true, false⟩ true rfl

/-- C4: `stop` is idempotent: a second `stop()` (same caller-thread
relationship) leaves the component state exactly as after the first; the
only operation the second call performs is `close()` on the queue, which is
already closed, and `close` on a closed queue is a no-op. -/
theorem c4_stop_idempotent (s : ComponentState) (c : Bool) :
    stopState (stopState s c) c = stopState s c
    ∧ stopActions (stopState s c) c = [StopAction.closeQueue]
    ∧ (stopState s c).msgQueue.close = (stopState s c).msgQueue := by
  obtain ⟨q, htm, wj⟩ := s
  cases c <;> cases wj <;>
    simp [stopState, stopActions, MessageQueue.close]

/-- C5: in every execution of `startMessageLoop`, installing the
thread-local active-component binding is the very first action (hence it
precedes any `onEntry` invocation); `onEntry` runs exactly when the hook is
non-null and the weak-handle upgrade at entry succeeds; `onExit` runs
exactly when the hook is non-null and the upgrade at exit succeeds, and in
that case it is the last action of the trace, after every processed
message. -/
theorem c5_loop_entry_exit_discipline
    (handlers : HandlerMap BaseMessageHandlerFunc)
    (hasOnEntry aliveAtEntry hasOnExit aliveAtExit : Bool)
    (msgs : List (Option MessageBase)) :
    (startMessageLoop handlers hasOnEntry aliveAtEntry hasOnExit aliveAtExit
        msgs).head?
      = some LoopAction.bindActiveComponent
    ∧ (LoopAction.runOnEntry
        ∈ startMessageLoop handlers hasOnEntry aliveAtEntry hasOnExit
            aliveAtExit msgs
        ↔ hasOnEntry = true ∧ aliveAtEntry = true)
    ∧ (LoopAction.runOnExit
        ∈ startMessageLoop handlers hasOnEntry aliveAtEntry hasOnExit
            aliveAtExit msgs
        ↔ hasOnExit = true ∧ aliveAtExit = true)
    ∧ (hasOnExit = true → aliveAtExit = true →
        (startMessageLoop handlers hasOnEntry aliveAtEntry hasOnExit
            aliveAtExit msgs).getLast?
          = some LoopAction.runOnExit) := by
  refine ⟨rfl, ?_, ?_, ?_⟩
  · cases hasOnEntry <;> cases aliveAtEntry <;>
      cases hasOnExit <;> cases aliveAtExit <;>
        simp [startMessageLoop]
  · cases hasOnEntry <;> cases aliveAtEntry <;>
      cases hasOnExit <;> cases aliveAtExit <;>
        simp [startMessageLoop]
  · intro hX aX
    subst hX
    subst aX
    simp only [startMessageLoop, Bool.and_self, if_true]
    rw [← List.cons_append]
    exact List.getLast?_concat _

/-- Witness for `c5_loop_entry_exit_discipline` with both hooks present,
both upgrades succeeding, an empty registry and an empty message sequence:
`onExit` is the last action. -/
theorem c5_loop_entry_exit_discipline_witness :
    (startMessageLoop [] true true true true []).getLast?
      = some LoopAction.runOnExit :=
  (c5_loop_entry_exit_discipline [] true true true true []).2.2.2 rfl rfl

/-- C6: `postMessage` forwards the message to the queue's `push` and wraps
the call in catch clauses covering `std::bad_alloc`, any `std::exception`
and everything else: whatever the push outcome, `postMessage` returns
normally (`Except.ok`); a successful push delivers the message, and every
push exception results in a logged drop — nothing propagates to the
caller. -/
theorem c6_postMessage_never_throws (r : Except CppExc MessageQueue) :
    (postMessageCatch r).isOk = true
    ∧ (∀ q, r = Except.ok q →
        postMessageCatch r = Except.ok (PostOutcome.delivered q))
    ∧ (∀ e, r = Except.error e →
        postMessageCatch r
          = Except.ok (PostOutcome.droppedLogged (pushErrorLogText e)))
    ∧ (∀ (q : MessageQueue) (msg : MessageBase) (allocOk : Bool),
        postMessage q msg allocOk = postMessageCatch (q.push msg allocOk)) := by
  refine ⟨?_, ?_, ?_, fun q msg a => rfl⟩
  · cases r <;> rfl
  · intro q hq
    subst hq
    rfl
  · intro e he
    subst he
    rfl

/-- Witness for `c6_postMessage_never_throws`: a push that threw an unknown
exception is caught and logged; `postMessage` returns normally. -/
theorem c6_postMessage_never_throws_witness :
    postMessageCatch (Except.error CppExc.unknownExc)
      = Except.ok
          (PostOutcome.droppedLogged (pushErrorLogText CppExc.unknownExc)) :=
  (c6_postMessage_never_throws (Except.error CppExc.unknownExc)).2.2.1
    CppExc.unknownExc rfl

/-- C7: `Timer::start` called with a non-null callback on a thread with no
active component (the thread-local weak handle is empty, so
`Component::getTimerManager()` yields the empty handle): no operation is
performed on any timer manager (no job registered, no schedule changed),
the façade's job id is unchanged, and a subsequent `running()` returns
false. -/
theorem c7_start_without_active_component (t : Timer) (ms : Nat) :
    (Timer.start t ms false none).2 = []
    ∧ (Timer.start t ms false none).1.running = false
    ∧ (Timer.start t ms false none).1.id = t.id := by
  simp [Timer.start, getTimerManagerStatic, Timer.running]

/-- C8: a Timer started with `cyclic = false` invokes its user callback at
most once: by the TimerManager contract (modelled from the spec) the
marshalling callback of a non-cyclic job fires at most once, each firing
posts at most one `TimeoutMessage` (executed exactly once by the built-in
handler), and a firing marks the façade's job id invalid whether or not
the component is still alive. -/
theorem c8_oneshot_at_most_once (t : Timer) (aliveSeq : List Bool)
    (alive : Bool) (hcyc : t.cyclic = false)
    (hfires : TimerManager.validFireCount t.cyclic aliveSeq.length) :
    (Timer.runFirings t aliveSeq).2 ≤ 1
    ∧ (t.onTimeout alive).1.id = TimerManager.invalidJobID := by
  constructor
  · exact le_trans (runFirings_le_length aliveSeq t) (hfires hcyc)
  · cases alive <;> simp [Timer.onTimeout, hcyc]

/-- Witness for `c8_oneshot_at_most_once`: a freshly constructed (hence
non-cyclic) timer with a single firing whose component upgrade succeeds. -/
theorem c8_oneshot_at_most_once_witness :
    (Timer.runFirings Timer.init [true]).2 ≤ 1
    ∧ (Timer.init.onTimeout true).1.id = TimerManager.invalidJobID :=
  c8_oneshot_at_most_once Timer.init [true] true rfl (fun _ => by decide)

/-- C10: `initConnection(addr)` updates `_receiverAddress` and `_pipeName`
exactly when `addr` is not `INVALID_ADDRESS` and differs from the current
receiver address — and then `_receiverAddress` becomes `addr` and
`_pipeName` becomes `constructPipeName(addr)`; in every other case both
fields are unchanged. -/
theorem c10_initConnection_frame {α : Type} [DecidableEq α]
    (invalidAddress : α) (constructPipeName : α → String)
    (s : NamedPipeSenderState α) (addr : α) :
    (addr ≠ invalidAddress → s.receiverAddress ≠ addr →
      initConnection invalidAddress constructPipeName s addr
        = { pipeName := constructPipeName addr, receiverAddress := addr })
    ∧ ((addr = invalidAddress ∨ s.receiverAddress = addr) →
      initConnection invalidAddress constructPipeName s addr = s) := by
  constructor
  · intro h1 h2
    simp [initConnection, h1, h2]
  · intro h
    rcases h with h | h <;> simp [initConnection, h]

/-- Witness for `c10_initConnection_frame` over `α := Nat` with
`INVALID_ADDRESS := 0`: connecting to the fresh valid address 2 updates
both fields. -/
theorem c10_initConnection_frame_witness :
    initConnection (0 : Nat) (fun _ => "pipe")
        { pipeName := "", receiverAddress := 1 } 2
      = { pipeName := "pipe", receiverAddress := 2 } :=
  (c10_initConnection_frame 0 (fun _ => "pipe")
      { pipeName := "", receiverAddress := 1 } 2).1
    (by decide) (by decide)

end Maf
